import Mathlib

/-!
Shallow embedding of `src/index.js` of the Stripe payment-failure monitor.

The program is sequential request/response glue over three external SDKs
(Stripe, Gmail, Airtable).  Every external call is modelled as a field of an
`Env` record: the outcome a call would have (`Except String α`, where
`.error` models a thrown/rejected promise).  Pure computations of the
program (log-buffer maintenance, string rendering, field normalization,
row construction) are translated directly.  Besides the HTTP response,
each handler returns the observable effects it performed: the log entries
appended, the customer-lookup calls issued, and the `FailureData` values
handed to each of the two sinks (email dispatcher, record-store writer).
-/

namespace StripeMonitor

/-- A log entry as built by `addLog` (src/index.js line 35):
`{ timestamp, message, type }`. -/
structure LogEntry where
  timestamp : String
  message : String
  type : String
deriving Repr, DecidableEq

/-- `addLog` (src/index.js lines 33-44): unshift the new entry, then if the
list exceeds 50 entries keep only the first 50.  The JS default argument
`type = 'info'` is passed explicitly at every call site below. -/
def addLog (logs : List LogEntry) (timestamp message ty : String) : List LogEntry :=
  let logs1 : List LogEntry := { timestamp := timestamp, message := message, type := ty } :: logs
  if logs1.length > 50 then logs1.take 50 else logs1

/-- A Stripe customer object as used by `processFailedPayment`: only the
`email` and `name` fields are read.  `none` models a missing/undefined
field; `some ""` models a present but empty string (falsy in JS). -/
structure Customer where
  email : Option String
  name : Option String
deriving Repr, DecidableEq

/-- The `last_payment_error` object: only `.message` is read. -/
structure PaymentError where
  message : Option String
deriving Repr, DecidableEq

/-- The fields of `event.data.object` that the program reads.  For the
`payment_intent.payment_failed` branch all fields are used; the
`charge.failed` and `invoice.payment_failed` branches read only `id`. -/
structure PaymentIntent where
  id : String
  customer : Option String
  amount : Int
  currency : String
  lastPaymentError : Option PaymentError
deriving Repr, DecidableEq

/-- A verified Stripe webhook event: `event.type` and `event.data.object`. -/
structure StripeEvent where
  type : String
  object : PaymentIntent
deriving Repr, DecidableEq

/-- The `failureData` object built by `processFailedPayment`
(src/index.js lines 144-152). -/
structure FailureData where
  paymentId : String
  customerEmail : String
  customerName : String
  amount : Int
  currency : String
  failureReason : String
  failedAt : String
deriving Repr, DecidableEq

/-- The row handed to `base('Failed Payments').create` by
`updateAirtableRecord` (src/index.js lines 118-127).  `amount` is a
rational: JS number division `failureData.amount / 100` is exact decimal
division here, not integer division. -/
structure AirtableRow where
  paymentID : String
  customerEmail : String
  customerName : String
  amount : ℚ
  currency : String
  failureReason : String
  failedAt : String
  status : String
deriving Repr, DecidableEq

/-- JS `s.toUpperCase()`: upper-case every character (the currencies at
hand are ASCII). -/
def jsToUpper (s : String) : String := ⟨s.data.map Char.toUpper⟩

/-- JS `a || d` for a possibly-absent string `a`: an absent value and the
empty string are falsy, any other string is truthy. -/
def jsOrStr : Option String → String → String
  | none, d => d
  | some s, d => if s = "" then d else s

/-- JS truthiness of a possibly-absent string (used by the ternary
`paymentIntent.customer ? ... : ...`). -/
def jsTruthyStr : Option String → Bool
  | none => false
  | some s => !(s = "")

/-- The environment: configuration values and the outcome each external
call would have.  `.error msg` models a rejected promise / thrown error
carrying `error.message = msg`.  `b64encode` stands for the external
`Buffer.from(...).toString('base64')` plus URL-safe replacements
(src/index.js line 98); no claim depends on its definition. -/
structure Env where
  now : String
  alertEmail : Option String
  constructEvent : Except String StripeEvent
  retrieveCustomer : String → Except String Customer
  authClient : Except String Unit
  b64encode : String → String
  gmailSend : String → Except String Unit
  airtableCreate : AirtableRow → Except String String

/-- The part of the email template (src/index.js lines 74-96) that precedes
the interpolated amount, rendered for a given failure record. -/
def emailPre (alertEmail : Option String) (fd : FailureData) : String :=
  "\nSubject: 🚨 Payment Failed Alert - " ++ fd.customerEmail ++
  "\nTo: " ++ jsOrStr alertEmail "your-email@example.com" ++
  "\nContent-Type: text/html; charset=utf-8\n\n<html>\n<body>\n  <h2>🚨 Payment Failure Alert</h2>\n  <p>A payment has failed and requires attention:</p>\n  \n  <table border=\"1\" cellpadding=\"10\" cellspacing=\"0\">\n    <tr><td><strong>Payment ID:</strong></td><td>" ++
  fd.paymentId ++
  "</td></tr>\n    <tr><td><strong>Customer:</strong></td><td>" ++
  fd.customerName ++ " (" ++ fd.customerEmail ++
  ")</td></tr>\n    <tr><td><strong>Amount:</strong></td><td>"

/-- The part of the email template that follows the interpolated currency. -/
def emailPost (fd : FailureData) : String :=
  "</td></tr>\n    <tr><td><strong>Failure Reason:</strong></td><td>" ++
  fd.failureReason ++
  "</td></tr>\n    <tr><td><strong>Failed At:</strong></td><td>" ++
  fd.failedAt ++
  "</td></tr>\n  </table>\n  \n  <p><strong>Action Required:</strong> Please review this failed payment and take appropriate action.</p>\n  \n  <p>View in Stripe Dashboard: <a href=\"https://dashboard.stripe.com/payments/" ++
  fd.paymentId ++
  "\">Click here</a></p>\n</body>\n</html>"

/-- The full rendered email body `emailContent` of `sendGmailAlert`
(src/index.js lines 74-96): the Amount cell interpolates
`failureData.amount` verbatim followed by a space and
`failureData.currency.toUpperCase()`. -/
def emailContent (alertEmail : Option String) (fd : FailureData) : String :=
  emailPre alertEmail fd ++ toString fd.amount ++ " " ++ jsToUpper fd.currency ++ emailPost fd

/-- `sendGmailAlert` (src/index.js lines 69-113).  The try block first
awaits `auth.getClient()`, then renders and encodes the email, then awaits
`gmail.users.messages.send`; success logs at info severity and returns
`true`; any thrown error is caught, logged at error severity with the
underlying message, and turned into `false`. -/
def sendGmailAlert (env : Env) (fd : FailureData) (logs : List LogEntry) :
    Bool × List LogEntry :=
  match env.authClient with
  | .error e =>
    (false, addLog logs env.now ("Failed to send email alert: " ++ e) "error")
  | .ok _ =>
    match env.gmailSend (env.b64encode (emailContent env.alertEmail fd)) with
    | .ok _ =>
      (true, addLog logs env.now ("Email alert sent for payment failure: " ++ fd.paymentId) "info")
    | .error e =>
      (false, addLog logs env.now ("Failed to send email alert: " ++ e) "error")

/-- The row built by `updateAirtableRecord` (src/index.js lines 118-127):
Amount is `failureData.amount / 100` (cents to dollars), Currency is
upper-cased, Status is the literal `"Failed"`. -/
def airtableRow (fd : FailureData) : AirtableRow :=
  { paymentID := fd.paymentId
    customerEmail := fd.customerEmail
    customerName := fd.customerName
    amount := (fd.amount : ℚ) / 100
    currency := jsToUpper fd.currency
    failureReason := fd.failureReason
    failedAt := fd.failedAt
    status := "Failed" }

/-- `updateAirtableRecord` (src/index.js lines 116-135): awaits the create
call; success logs at info severity and returns the created record (we keep
its id); any thrown error is caught, logged at error severity, and turned
into `null` (here `none`). -/
def updateAirtableRecord (env : Env) (fd : FailureData) (logs : List LogEntry) :
    Option String × List LogEntry :=
  match env.airtableCreate (airtableRow fd) with
  | .ok rid =>
    (some rid, addLog logs env.now ("Created Airtable record for failed payment: " ++ rid) "info")
  | .error e =>
    (none, addLog logs env.now ("Failed to create Airtable record: " ++ e) "error")

/-- The `failureData` object literal of `processFailedPayment`
(src/index.js lines 144-152), given the resolved customer object and the
processing-time timestamp `new Date().toISOString()`. -/
def buildFailureData (p : PaymentIntent) (c : Customer) (now : String) : FailureData :=
  { paymentId := p.id
    customerEmail := jsOrStr c.email "Unknown"
    customerName := jsOrStr c.name (jsOrStr c.email "Unknown Customer")
    amount := p.amount
    currency := p.currency
    failureReason := jsOrStr (p.lastPaymentError.bind PaymentError.message) "Unknown error"
    failedAt := now }

/-- Observable effects of one request: the final log list, the customer
references passed to `stripe.customers.retrieve`, and the failure records
handed to `sendGmailAlert` and to `updateAirtableRecord` respectively. -/
structure ProcessResult where
  logs : List LogEntry
  lookupCalls : List String
  emailCalls : List FailureData
  airtableCalls : List FailureData
deriving Repr, DecidableEq

/-- `processFailedPayment` (src/index.js lines 138-166).  The whole body is
one try block whose only throwing statement is the awaited
`stripe.customers.retrieve` (both sinks catch internally): a truthy
`paymentIntent.customer` triggers the lookup, otherwise the sentinel object
`{email:'Unknown', name:'Unknown Customer'}` is used.  A thrown lookup
error lands in the catch, which logs at error severity and returns —
skipping both sinks.  On the normal path the failure record is built, then
the email sink runs, then the record-store sink, then the success log. -/
def processFailedPayment (env : Env) (p : PaymentIntent) (logs : List LogEntry) :
    ProcessResult :=
  if jsTruthyStr p.customer then
    let c := p.customer.getD ""
    match env.retrieveCustomer c with
    | .error e =>
      { logs := addLog logs env.now ("Error processing failed payment: " ++ e) "error"
        lookupCalls := [c], emailCalls := [], airtableCalls := [] }
    | .ok customer =>
      let fd := buildFailureData p customer env.now
      let logs1 := addLog logs env.now
        ("Processing failed payment: " ++ fd.paymentId ++ " for " ++ fd.customerEmail) "info"
      let logs2 := (sendGmailAlert env fd logs1).2
      let logs3 := (updateAirtableRecord env fd logs2).2
      let logs4 := addLog logs3 env.now
        ("Successfully processed failed payment: " ++ fd.paymentId) "info"
      { logs := logs4, lookupCalls := [c], emailCalls := [fd], airtableCalls := [fd] }
  else
    let fd := buildFailureData p { email := some "Unknown", name := some "Unknown Customer" } env.now
    let logs1 := addLog logs env.now
      ("Processing failed payment: " ++ fd.paymentId ++ " for " ++ fd.customerEmail) "info"
    let logs2 := (sendGmailAlert env fd logs1).2
    let logs3 := (updateAirtableRecord env fd logs2).2
    let logs4 := addLog logs3 env.now
      ("Successfully processed failed payment: " ++ fd.paymentId) "info"
    { logs := logs4, lookupCalls := [], emailCalls := [fd], airtableCalls := [fd] }

/-- Body of an HTTP response of the webhook endpoint: `res.json({received:true})`
or the plain text sent by `res.status(400).send(...)`. -/
inductive RespBody where
  | jsonReceivedTrue : RespBody
  | text : String → RespBody
deriving Repr, DecidableEq

/-- An HTTP response: status code and body. -/
structure Response where
  status : Nat
  body : RespBody
deriving Repr, DecidableEq

/-- The `POST /webhook` handler (src/index.js lines 169-202).
`stripe.webhooks.constructEvent` throwing yields an immediate
400 `Webhook Error: <message>` with an error-severity log and nothing
else; otherwise the received event type is logged and the switch
dispatches on `event.type`, after which `res.json({received:true})` is
sent unconditionally. -/
def webhookHandler (env : Env) (logs : List LogEntry) : Response × ProcessResult :=
  match env.constructEvent with
  | .error e =>
    ({ status := 400, body := .text ("Webhook Error: " ++ e) },
     { logs := addLog logs env.now ("Webhook signature verification failed: " ++ e) "error"
       lookupCalls := [], emailCalls := [], airtableCalls := [] })
  | .ok event =>
    let logs1 := addLog logs env.now ("Received webhook event: " ++ event.type) "info"
    if event.type = "payment_intent.payment_failed" then
      ({ status := 200, body := .jsonReceivedTrue },
       processFailedPayment env event.object logs1)
    else if event.type = "charge.failed" then
      ({ status := 200, body := .jsonReceivedTrue },
       { logs := addLog logs1 env.now ("Charge failed: " ++ event.object.id) "info"
         lookupCalls := [], emailCalls := [], airtableCalls := [] })
    else if event.type = "invoice.payment_failed" then
      ({ status := 200, body := .jsonReceivedTrue },
       { logs := addLog logs1 env.now ("Invoice payment failed: " ++ event.object.id) "info"
         lookupCalls := [], emailCalls := [], airtableCalls := [] })
    else
      ({ status := 200, body := .jsonReceivedTrue },
       { logs := addLog logs1 env.now ("Unhandled event type: " ++ event.type) "warning"
         lookupCalls := [], emailCalls := [], airtableCalls := [] })

/-- Appending `n` log entries in sequence starting from the empty log, the
`i`-th append carrying message `toString i` (used to state the 51-append
property of the activity log). -/
def appendRange (n : Nat) : List LogEntry :=
  (List.range n).foldl (fun logs i => addLog logs "t" (toString i) "info") []

/-! Concrete sample inputs used to exercise the definitions. -/

/-- A sample resolved customer. -/
def sampleCustomer : Customer := { email := some "jane@example.com", name := some "Jane Doe" }

/-- A sample failed payment intent carrying a customer reference. -/
def samplePI : PaymentIntent :=
  { id := "pi_1"
    customer := some "cus_1"
    amount := 2999
    currency := "usd"
    lastPaymentError := some { message := some "Your card was declined." } }

/-- A sample `payment_intent.payment_failed` event. -/
def sampleEvent : StripeEvent :=
  { type := "payment_intent.payment_failed", object := samplePI }

/-- A baseline environment in which signature verification fails and every
other external call succeeds. -/
def baseEnv : Env :=
  { now := "2026-01-01T00:00:00.000Z"
    alertEmail := some "ops@example.com"
    constructEvent := .error "No signatures found matching the expected signature for payload."
    retrieveCustomer := fun _ => .ok sampleCustomer
    authClient := .ok ()
    b64encode := fun s => s
    gmailSend := fun _ => .ok ()
    airtableCreate := fun _ => .ok "recAB12" }

/-- The baseline environment with a successfully verified sample event. -/
def okEnv : Env := { baseEnv with constructEvent := .ok sampleEvent }

/-- An environment in which the event verifies but the customer lookup
throws. -/
def lookupFailEnv : Env :=
  { okEnv with retrieveCustomer := fun _ => .error "No such customer: cus_1" }

/-- An environment in which the event verifies but the Gmail send throws. -/
def emailFailEnv : Env :=
  { okEnv with gmailSend := fun _ => .error "invalid_grant" }

/-- A fully populated sample failure record (the shape also used by the
manual `/test` endpoint: amount 2999 minor units, currency "usd"). -/
def testFd : FailureData :=
  { paymentId := "pi_1"
    customerEmail := "jane@example.com"
    customerName := "Jane Doe"
    amount := 2999
    currency := "usd"
    failureReason := "Your card was declined."
    failedAt := "2026-01-01T00:00:00.000Z" }

/-! Helper lemmas shared by the claim theorems. -/

/-- On a verification error the handler short-circuits to the 400 branch. -/
theorem webhookHandler_error (env : Env) (logs : List LogEntry) (e : String)
    (h : env.constructEvent = .error e) :
    webhookHandler env logs =
      ({ status := 400, body := .text ("Webhook Error: " ++ e) },
       { logs := addLog logs env.now ("Webhook signature verification failed: " ++ e) "error"
         lookupCalls := [], emailCalls := [], airtableCalls := [] }) := by
  unfold webhookHandler
  rw [h]

/-- On a verified event the handler's response is 200 `{received:true}`,
whatever branch the switch takes. -/
theorem webhookHandler_ok_response (env : Env) (logs : List LogEntry) (ev : StripeEvent)
    (h : env.constructEvent = .ok ev) :
    (webhookHandler env logs).1 = { status := 200, body := .jsonReceivedTrue } := by
  unfold webhookHandler
  rw [h]
  dsimp only
  split
  · rfl
  · split
    · rfl
    · split
      · rfl
      · rfl

/-! Claim theorems. -/

/-- C1: on signature-verification failure the webhook handler returns
status 400 with the error text, appends exactly one error-severity log
entry, performs no customer lookup, and invokes neither the email sink nor
the record-store sink (so no failure record reaches any sink). -/
theorem C1_signature_failure_rejected (env : Env) (logs : List LogEntry) (e : String)
    (h : env.constructEvent = .error e) :
    webhookHandler env logs =
      ({ status := 400, body := .text ("Webhook Error: " ++ e) },
       { logs := addLog logs env.now ("Webhook signature verification failed: " ++ e) "error"
         lookupCalls := [], emailCalls := [], airtableCalls := [] }) :=
  webhookHandler_error env logs e h

/-- Witness for C1: in the baseline environment the verification error is
concrete and the handler produces the 400 response with the single
error-severity log entry and no sink calls. -/
theorem C1_signature_failure_rejected_witness :
    baseEnv.constructEvent =
      .error "No signatures found matching the expected signature for payload." ∧
    webhookHandler baseEnv [] =
      ({ status := 400,
         body := .text "Webhook Error: No signatures found matching the expected signature for payload." },
       { logs := [{ timestamp := "2026-01-01T00:00:00.000Z"
                    message := "Webhook signature verification failed: No signatures found matching the expected signature for payload."
                    type := "error" }]
         lookupCalls := [], emailCalls := [], airtableCalls := [] }) :=
  ⟨rfl, C1_signature_failure_rejected baseEnv []
    "No signatures found matching the expected signature for payload." rfl⟩

/-- C2: on any verified event the webhook handler responds 200
`{received:true}`, for every environment (hence for every outcome of the
email and record-store sinks) and every event type. -/
theorem C2_verified_event_acknowledged (env : Env) (logs : List LogEntry) (ev : StripeEvent)
    (h : env.constructEvent = .ok ev) :
    (webhookHandler env logs).1 = { status := 200, body := .jsonReceivedTrue } :=
  webhookHandler_ok_response env logs ev h

/-- Witness for C2: a concrete verified event in an environment where the
customer lookup throws (so even the pipeline's internal failure path is
exercised) still yields 200 `{received:true}`. -/
theorem C2_verified_event_acknowledged_witness :
    lookupFailEnv.constructEvent = .ok sampleEvent ∧
    (webhookHandler lookupFailEnv []).1 = { status := 200, body := .jsonReceivedTrue } :=
  ⟨rfl, C2_verified_event_acknowledged lookupFailEnv [] sampleEvent rfl⟩

/-- On a truthy customer reference whose lookup throws, the whole pipeline
body is aborted by the catch block: one error-severity log entry, one
lookup call, and no sink call at all. -/
theorem processFailedPayment_lookup_error (env : Env) (p : PaymentIntent)
    (logs : List LogEntry) (c e : String)
    (hc : p.customer = some c) (hne : ¬ c = "")
    (hr : env.retrieveCustomer c = .error e) :
    processFailedPayment env p logs =
      { logs := addLog logs env.now ("Error processing failed payment: " ++ e) "error"
        lookupCalls := [c], emailCalls := [], airtableCalls := [] } := by
  unfold processFailedPayment
  rw [hc]
  rw [if_pos (show jsTruthyStr (some c) = true by simp [jsTruthyStr, hne])]
  dsimp only
  rw [Option.getD_some, hr]

/-- C3: the claim asserts that a failing customer lookup must not abort the
pipeline and that both sinks still run.  In the code the awaited
`stripe.customers.retrieve` throws inside the single try block of
`processFailedPayment`, so control jumps to the catch: at this concrete
failing input the lookup is attempted, the error is logged, and neither
the email sink nor the record-store sink is ever invoked — both sink-call
lists are empty, contradicting the claim. -/
theorem C3_lookup_failure_aborts_pipeline :
    (processFailedPayment lookupFailEnv samplePI []).lookupCalls = ["cus_1"] ∧
    (processFailedPayment lookupFailEnv samplePI []).emailCalls = [] ∧
    (processFailedPayment lookupFailEnv samplePI []).airtableCalls = [] ∧
    (processFailedPayment lookupFailEnv samplePI []).logs =
      [{ timestamp := "2026-01-01T00:00:00.000Z"
         message := "Error processing failed payment: No such customer: cus_1"
         type := "error" }] :=
  ⟨rfl, rfl, rfl, rfl⟩

/-- C4: dispatch of a verified event is decided solely by `event.type`:
the `payment_intent.payment_failed` tag hands `event.data.object` to the
full `processFailedPayment` pipeline; `charge.failed` and
`invoice.payment_failed` only append one info log entry and call no sink;
every other tag appends one warning-severity log entry and calls no sink. -/
theorem C4_dispatch_by_event_type (env : Env) (logs : List LogEntry) (ev : StripeEvent)
    (h : env.constructEvent = .ok ev) :
    (ev.type = "payment_intent.payment_failed" →
      webhookHandler env logs =
        ({ status := 200, body := .jsonReceivedTrue },
         processFailedPayment env ev.object
           (addLog logs env.now ("Received webhook event: " ++ ev.type) "info"))) ∧
    (ev.type = "charge.failed" →
      webhookHandler env logs =
        ({ status := 200, body := .jsonReceivedTrue },
         { logs := addLog
             (addLog logs env.now ("Received webhook event: " ++ ev.type) "info")
             env.now ("Charge failed: " ++ ev.object.id) "info"
           lookupCalls := [], emailCalls := [], airtableCalls := [] })) ∧
    (ev.type = "invoice.payment_failed" →
      webhookHandler env logs =
        ({ status := 200, body := .jsonReceivedTrue },
         { logs := addLog
             (addLog logs env.now ("Received webhook event: " ++ ev.type) "info")
             env.now ("Invoice payment failed: " ++ ev.object.id) "info"
           lookupCalls := [], emailCalls := [], airtableCalls := [] })) ∧
    (¬ ev.type = "payment_intent.payment_failed" →
     ¬ ev.type = "charge.failed" →
     ¬ ev.type = "invoice.payment_failed" →
      webhookHandler env logs =
        ({ status := 200, body := .jsonReceivedTrue },
         { logs := addLog
             (addLog logs env.now ("Received webhook event: " ++ ev.type) "info")
             env.now ("Unhandled event type: " ++ ev.type) "warning"
           lookupCalls := [], emailCalls := [], airtableCalls := [] })) := by
  refine ⟨?_, ?_, ?_, ?_⟩
  · intro h1
    unfold webhookHandler
    rw [h]
    dsimp only
    rw [h1, if_pos rfl]
  · intro h1
    unfold webhookHandler
    rw [h]
    dsimp only
    rw [h1, if_neg (by decide), if_pos rfl]
  · intro h1
    unfold webhookHandler
    rw [h]
    dsimp only
    rw [h1, if_neg (by decide), if_neg (by decide), if_pos rfl]
  · intro h1 h2 h3
    unfold webhookHandler
    rw [h]
    dsimp only
    rw [if_neg h1, if_neg h2, if_neg h3]

/-- Witness for C4: the concrete verified `payment_intent.payment_failed`
sample event takes the pipeline branch. -/
theorem C4_dispatch_by_event_type_witness :
    okEnv.constructEvent = .ok sampleEvent ∧
    sampleEvent.type = "payment_intent.payment_failed" ∧
    webhookHandler okEnv [] =
      ({ status := 200, body := .jsonReceivedTrue },
       processFailedPayment okEnv samplePI
         (addLog [] okEnv.now "Received webhook event: payment_intent.payment_failed" "info")) :=
  ⟨rfl, rfl, (C4_dispatch_by_event_type okEnv [] sampleEvent rfl).1 rfl⟩

/-- C9: any error thrown inside the `processFailedPayment` try block — in
this program the only throwing statement is the customer lookup — is
caught: one error-severity log entry is appended, the function returns
normally with both sinks skipped, and the webhook handler still answers
200 `{received:true}` for the event. -/
theorem C9_pipeline_error_swallowed (env : Env) (p : PaymentIntent)
    (logs : List LogEntry) (ev : StripeEvent) (c e : String)
    (hc : p.customer = some c) (hne : ¬ c = "")
    (hr : env.retrieveCustomer c = .error e) :
    processFailedPayment env p logs =
      { logs := addLog logs env.now ("Error processing failed payment: " ++ e) "error"
        lookupCalls := [c], emailCalls := [], airtableCalls := [] } ∧
    (env.constructEvent = .ok ev →
      (webhookHandler env logs).1 = { status := 200, body := .jsonReceivedTrue }) :=
  ⟨processFailedPayment_lookup_error env p logs c e hc hne hr,
   fun h => webhookHandler_ok_response env logs ev h⟩

/-- Witness for C9: with the sample event and a lookup that throws, the
pipeline returns the single error log and empty sink-call lists, and the
handler still responds 200. -/
theorem C9_pipeline_error_swallowed_witness :
    samplePI.customer = some "cus_1" ∧
    lookupFailEnv.retrieveCustomer "cus_1" = .error "No such customer: cus_1" ∧
    processFailedPayment lookupFailEnv samplePI [] =
      { logs := [{ timestamp := "2026-01-01T00:00:00.000Z"
                   message := "Error processing failed payment: No such customer: cus_1"
                   type := "error" }]
        lookupCalls := ["cus_1"], emailCalls := [], airtableCalls := [] } ∧
    (webhookHandler lookupFailEnv []).1 = { status := 200, body := .jsonReceivedTrue } :=
  ⟨rfl, rfl,
   (C9_pipeline_error_swallowed lookupFailEnv samplePI [] sampleEvent "cus_1"
      "No such customer: cus_1" rfl (by decide) rfl).1,
   (C9_pipeline_error_swallowed lookupFailEnv samplePI [] sampleEvent "cus_1"
      "No such customer: cus_1" rfl (by decide) rfl).2 rfl⟩

/-- A sample failed payment intent with no customer reference. -/
def noCustPI : PaymentIntent := { samplePI with customer := none }

/-- On an absent (falsy) customer reference the pipeline performs no lookup
and hands the sentinel-based failure record to both sinks. -/
theorem processFailedPayment_no_customer (env : Env) (p : PaymentIntent)
    (logs : List LogEntry) (hc : p.customer = none) :
    (processFailedPayment env p logs).lookupCalls = [] ∧
    (processFailedPayment env p logs).emailCalls =
      [buildFailureData p { email := some "Unknown", name := some "Unknown Customer" } env.now] ∧
    (processFailedPayment env p logs).airtableCalls =
      [buildFailureData p { email := some "Unknown", name := some "Unknown Customer" } env.now] := by
  unfold processFailedPayment
  rw [hc]
  rw [if_neg (by decide)]
  exact ⟨rfl, rfl, rfl⟩

/-- On a truthy customer reference whose lookup succeeds the pipeline
performs exactly one lookup and hands the failure record built from the
resolved customer to both sinks. -/
theorem processFailedPayment_lookup_ok (env : Env) (p : PaymentIntent)
    (logs : List LogEntry) (c : String) (customer : Customer)
    (hc : p.customer = some c) (hne : ¬ c = "")
    (hr : env.retrieveCustomer c = .ok customer) :
    (processFailedPayment env p logs).lookupCalls = [c] ∧
    (processFailedPayment env p logs).emailCalls = [buildFailureData p customer env.now] ∧
    (processFailedPayment env p logs).airtableCalls = [buildFailureData p customer env.now] := by
  unfold processFailedPayment
  rw [hc]
  rw [if_pos (show jsTruthyStr (some c) = true by simp [jsTruthyStr, hne])]
  dsimp only
  rw [Option.getD_some, hr]
  exact ⟨rfl, rfl, rfl⟩

/-- C5: the record-store writer builds a row whose Amount is the record's
minor-unit amount divided by 100, whose Currency is the record's currency
upper-cased, whose Status is the literal `"Failed"`; it returns the
created row's id when the create call succeeds and `none` when it throws —
the error is absorbed, never propagated (the function is total). -/
theorem C5_record_store_row (fd : FailureData) (env : Env) (logs : List LogEntry) :
    (airtableRow fd).amount = (fd.amount : ℚ) / 100 ∧
    (airtableRow fd).currency = jsToUpper fd.currency ∧
    (airtableRow fd).status = "Failed" ∧
    (∀ rid, env.airtableCreate (airtableRow fd) = .ok rid →
      (updateAirtableRecord env fd logs).1 = some rid) ∧
    (∀ e, env.airtableCreate (airtableRow fd) = .error e →
      (updateAirtableRecord env fd logs).1 = none) := by
  refine ⟨rfl, rfl, rfl, ?_, ?_⟩
  · intro rid hr
    unfold updateAirtableRecord
    rw [hr]
  · intro e hr
    unfold updateAirtableRecord
    rw [hr]

/-- Witness for C5: amount 2999 becomes 29.99, currency "usd" becomes
"USD", Status is "Failed", and with a succeeding create call the writer
returns the created row's id. -/
theorem C5_record_store_row_witness :
    (airtableRow testFd).amount = (29.99 : ℚ) ∧
    (airtableRow testFd).currency = "USD" ∧
    (airtableRow testFd).status = "Failed" ∧
    (updateAirtableRecord baseEnv testFd []).1 = some "recAB12" := by
  obtain ⟨h1, h2, h3, h4, -⟩ := C5_record_store_row testFd baseEnv []
  refine ⟨?_, ?_, h3, h4 "recAB12" rfl⟩
  · rw [h1]
    norm_num [testFd]
  · rw [h2]
    rfl

/-- C6: the email dispatcher is a total boolean-valued function: a thrown
auth error or a thrown send error is caught, logged at error severity with
the underlying message, and turned into `false`; a successful send yields
`true`.  Because it never throws, the record-store sink that follows it in
the pipeline is invoked for the same event whatever the email outcome: the
last two conjuncts hold for every environment, in particular for ones
whose Gmail send fails. -/
theorem C6_email_dispatcher_total (env : Env) (fd : FailureData)
    (logs : List LogEntry) (p : PaymentIntent) (c : String) (customer : Customer) :
    (∀ e, env.authClient = .error e →
      sendGmailAlert env fd logs =
        (false, addLog logs env.now ("Failed to send email alert: " ++ e) "error")) ∧
    (∀ e, env.authClient = .ok () →
      env.gmailSend (env.b64encode (emailContent env.alertEmail fd)) = .error e →
      sendGmailAlert env fd logs =
        (false, addLog logs env.now ("Failed to send email alert: " ++ e) "error")) ∧
    (env.authClient = .ok () →
      env.gmailSend (env.b64encode (emailContent env.alertEmail fd)) = .ok () →
      sendGmailAlert env fd logs =
        (true, addLog logs env.now ("Email alert sent for payment failure: " ++ fd.paymentId) "info")) ∧
    (p.customer = none →
      (processFailedPayment env p logs).airtableCalls =
        [buildFailureData p { email := some "Unknown", name := some "Unknown Customer" } env.now]) ∧
    (p.customer = some c → ¬ c = "" → env.retrieveCustomer c = .ok customer →
      (processFailedPayment env p logs).airtableCalls =
        [buildFailureData p customer env.now]) := by
  refine ⟨?_, ?_, ?_, ?_, ?_⟩
  · intro e he
    unfold sendGmailAlert
    rw [he]
  · intro e ha hs
    unfold sendGmailAlert
    rw [ha]
    dsimp only
    rw [hs]
  · intro ha hs
    unfold sendGmailAlert
    rw [ha]
    dsimp only
    rw [hs]
  · intro hc
    exact (processFailedPayment_no_customer env p logs hc).2.2
  · intro hc hne hr
    exact (processFailedPayment_lookup_ok env p logs c customer hc hne hr).2.2

/-- Witness for C6: with a Gmail send that throws `invalid_grant` the
dispatcher returns `false` and appends the error-severity log entry, and
the record-store sink is still handed the failure record of the same
event. -/
theorem C6_email_dispatcher_total_witness :
    sendGmailAlert emailFailEnv testFd [] =
      (false, [{ timestamp := "2026-01-01T00:00:00.000Z"
                 message := "Failed to send email alert: invalid_grant"
                 type := "error" }]) ∧
    (processFailedPayment emailFailEnv noCustPI []).airtableCalls =
      [{ paymentId := "pi_1", customerEmail := "Unknown", customerName := "Unknown Customer"
         amount := 2999, currency := "usd", failureReason := "Your card was declined."
         failedAt := "2026-01-01T00:00:00.000Z" }] :=
  ⟨(C6_email_dispatcher_total emailFailEnv testFd [] noCustPI "" sampleCustomer).2.1
      "invalid_grant" rfl rfl,
   (C6_email_dispatcher_total emailFailEnv testFd [] noCustPI "" sampleCustomer).2.2.2.1 rfl⟩

set_option maxRecDepth 100000 in
/-- C7: one append inserts the new entry at the front (`head?` is the new
entry), the log never exceeds 50 entries (`length = min (n+1) 50`), an
append to a full 50-entry log keeps the new entry plus the first 49 —
evicting the oldest, last entry — and after 51 sequential appends from the
empty log the first-appended entry is absent while the 51st is at
position 0. -/
theorem C7_activity_log_bounded (logs : List LogEntry) (t m ty : String) :
    (addLog logs t m ty).length = min (logs.length + 1) 50 ∧
    (addLog logs t m ty).head? = some { timestamp := t, message := m, type := ty } ∧
    (logs.length = 50 →
      addLog logs t m ty = { timestamp := t, message := m, type := ty } :: logs.take 49) ∧
    (appendRange 51).length = 50 ∧
    { timestamp := "t", message := "0", type := "info" } ∉ appendRange 51 ∧
    (appendRange 51).head? = some { timestamp := "t", message := "50", type := "info" } := by
  refine ⟨?_, ?_, ?_, by decide, by decide, by decide⟩
  · unfold addLog
    dsimp only
    split
    next h =>
      simp only [List.length_take, List.length_cons] at *
      omega
    next h =>
      simp only [List.length_cons] at *
      omega
  · unfold addLog
    dsimp only
    split
    · rfl
    · rfl
  · intro h50
    unfold addLog
    dsimp only
    rw [if_pos (by simp only [List.length_cons, h50]; omega)]
    rfl

set_option maxRecDepth 100000 in
/-- Witness for C7: appending to a concrete full log of 50 entries yields
the new entry followed by the first 49 old ones. -/
theorem C7_activity_log_bounded_witness :
    (appendRange 50).length = 50 ∧
    addLog (appendRange 50) "t" "50" "info" =
      { timestamp := "t", message := "50", type := "info" } :: (appendRange 50).take 49 :=
  ⟨by decide, (C7_activity_log_bounded (appendRange 50) "t" "50" "info").2.2.1 (by decide)⟩

/-- C8: an absent customer reference triggers no lookup call and both
sinks receive the record built from the sentinel customer, whose email is
`"Unknown"` and name `"Unknown Customer"`; and for any resolved customer
object the record's email defaults to `"Unknown"` when the customer has no
email, while the name falls back first to the customer's email and then to
the `"Unknown Customer"` sentinel. -/
theorem C8_sentinel_fallbacks (env : Env) (p : PaymentIntent) (logs : List LogEntry)
    (c : Customer) (now : String) :
    (p.customer = none →
      (processFailedPayment env p logs).lookupCalls = [] ∧
      (processFailedPayment env p logs).emailCalls =
        [buildFailureData p { email := some "Unknown", name := some "Unknown Customer" } env.now]) ∧
    (buildFailureData p { email := some "Unknown", name := some "Unknown Customer" } now).customerEmail
      = "Unknown" ∧
    (buildFailureData p { email := some "Unknown", name := some "Unknown Customer" } now).customerName
      = "Unknown Customer" ∧
    (c.email = none → (buildFailureData p c now).customerEmail = "Unknown") ∧
    (∀ e, c.name = none → c.email = some e → ¬ e = "" →
      (buildFailureData p c now).customerName = e) ∧
    (c.name = none → c.email = none →
      (buildFailureData p c now).customerName = "Unknown Customer") := by
  refine ⟨?_, rfl, rfl, ?_, ?_, ?_⟩
  · intro hc
    exact ⟨(processFailedPayment_no_customer env p logs hc).1,
           (processFailedPayment_no_customer env p logs hc).2.1⟩
  · intro h
    simp [buildFailureData, jsOrStr, h]
  · intro e hn he hne
    simp [buildFailureData, jsOrStr, hn, he, hne]
  · intro hn he
    simp [buildFailureData, jsOrStr, hn, he]

/-- Witness for C8: the sample event without customer reference performs
no lookup and dispatches the sentinel record; a customer with no email
yields `"Unknown"`; a customer with email but no name takes the email as
name; a customer with neither takes the sentinel name. -/
theorem C8_sentinel_fallbacks_witness :
    (processFailedPayment baseEnv noCustPI []).lookupCalls = [] ∧
    (processFailedPayment baseEnv noCustPI []).emailCalls =
      [{ paymentId := "pi_1", customerEmail := "Unknown", customerName := "Unknown Customer"
         amount := 2999, currency := "usd", failureReason := "Your card was declined."
         failedAt := "2026-01-01T00:00:00.000Z" }] ∧
    (buildFailureData noCustPI { email := none, name := none } "now").customerEmail = "Unknown" ∧
    (buildFailureData noCustPI { email := none, name := none } "now").customerName
      = "Unknown Customer" ∧
    (buildFailureData noCustPI { email := some "jane@example.com", name := none } "now").customerName
      = "jane@example.com" := by
  obtain ⟨h1, -, -, h4, -, h6⟩ :=
    C8_sentinel_fallbacks baseEnv noCustPI [] { email := none, name := none } "now"
  obtain ⟨ha, hb⟩ := h1 rfl
  refine ⟨ha, hb, h4 rfl, h6 rfl rfl, ?_⟩
  exact (C8_sentinel_fallbacks baseEnv noCustPI []
      { email := some "jane@example.com", name := none } "now").2.2.2.2.1
    "jane@example.com" rfl rfl (by decide)

set_option maxRecDepth 400000 in
/-- C10: the rendered email body interpolates the raw minor-unit amount
followed by a space and the upper-cased currency — no division by 100 —
while the record-store row carries the amount divided by 100: for amount
2999 and currency "usd" the email body contains "2999 USD" while the row's
Amount is 29.99. -/
theorem C10_email_amount_raw_minor_units (ae : Option String) (fd : FailureData) :
    (∃ pre post, emailContent ae fd =
      pre ++ toString fd.amount ++ " " ++ jsToUpper fd.currency ++ post) ∧
    (airtableRow fd).amount = (fd.amount : ℚ) / 100 ∧
    (∃ pre post, emailContent (some "ops@example.com") testFd = pre ++ "2999 USD" ++ post) ∧
    (airtableRow testFd).amount = (29.99 : ℚ) := by
  refine ⟨⟨emailPre ae fd, emailPost fd, rfl⟩, rfl, ?_, ?_⟩
  · exact ⟨emailPre (some "ops@example.com") testFd, emailPost testFd, by decide⟩
  · norm_num [airtableRow, testFd]

end StripeMonitor
